import Mathlib

/-!
# Verification of the mongo-lock-node RWMutex protocol engine

Shallow embedding of `lib/RWMutex.ts`: a distributed reader/writer lock whose
entire shared state is one MongoDB document per `lockID`, mutated only through
atomic conditional `updateOne` / `deleteOne` operations, with a unique index on
`lockID`.

Modelling conventions:
* A `MongoLock` document is the exported TypeScript interface
  `{ lockID: string; readers: string[]; writer: string }`.  All three fields are
  mandatory (the integration test installs a `$jsonSchema` validator requiring
  them), so the `$exists: false` / `null` alternatives inside
  `emptyReadersQuery` / `emptyWriterQuery` can never hold on a stored document;
  on this typed collection those queries reduce to `$size: 0` (resp. `""`).
* Because every filter used by the engine constrains `lockID` and the
  collection has a unique index on `lockID`, the portion of the collection a
  mutex can see or touch is the at-most-one document carrying its `lockID`.
  `LockStore` is that slot: `none` = no document with this `lockID`.
* `updateOne` with `upsert: true` whose filter matches no document attempts to
  insert a document built from the filter's equality fields plus the
  `$set`/`$setOnInsert` mutations.  When a document with the same `lockID`
  already exists (it merely failed the rest of the filter), the unique index
  rejects the insert with a `MongoError` of code 11000 (duplicate key).  This
  is the conflict signal the engine's retry loops absorb.
* JavaScript exceptions are modelled by `StoreErr` (the shape the `catch`
  blocks inspect: `instanceof MongoError`, `instanceof Error`, `.code`,
  `.message`); thrown wrapped errors are plain `String` messages, exactly the
  strings the source constructs.
-/

namespace MongoLockNode

/-- The exported `MongoLock` interface of `lib/RWMutex.ts`:
`{ lockID: string; readers: string[]; writer: string }`. -/
structure MongoLock where
  lockID : String
  readers : List String
  writer : String
deriving Repr, DecidableEq

/-- The at-most-one document of the collection whose `lockID` field equals the
mutex's `lockID` (the collection has a unique index on `lockID`, and every
filter the engine issues constrains `lockID`). `none` = no such document. -/
abbrev LockStore := Option MongoLock

/-- The `{ matchedCount, upsertedCount }` portion of a mongodb `UpdateResult`
inspected by the engine. -/
structure UpdateResult where
  matchedCount : Nat
  upsertedCount : Nat
deriving Repr, DecidableEq

/-- The `{ deletedCount }` portion of a mongodb `DeleteResult`. -/
structure DeleteResult where
  deletedCount : Nat
deriving Repr, DecidableEq

/-- `export const DuplicateKeyErrorCode = 11000`. -/
def DuplicateKeyErrorCode : Int := 11000

/-- The shape of a caught exception, as inspected by the source's `catch`
blocks: `err instanceof MongoError`, `err instanceof Error`, `err.code`,
`err.message`. -/
structure StoreErr where
  isMongoError : Bool
  isError : Bool
  code : Int
  message : String
deriving Repr, DecidableEq

/-- `err instanceof MongoError && err.code === DuplicateKeyErrorCode`. -/
def StoreErr.isDuplicateKey (e : StoreErr) : Bool :=
  e.isMongoError && e.code == DuplicateKeyErrorCode

/-- The duplicate-key `MongoError` raised by the unique index on `lockID`. -/
def dupKeyErr : StoreErr :=
  { isMongoError := true, isError := true, code := DuplicateKeyErrorCode,
    message := "E11000 duplicate key error" }

/-- Outcome of one store call: the driver's result, or a thrown exception. -/
inductive StoreOutcome (α : Type) where
  | ok (r : α)
  | err (e : StoreErr)
deriving Repr, DecidableEq

/-- `emptyReadersQuery` applied to a stored document: the `$size: 0` branch
(the `$exists: false` / `null` branches cannot hold for a mandatory array
field). -/
def emptyReadersMatch (l : MongoLock) : Bool :=
  l.readers.isEmpty

/-- `emptyWriterQuery` applied to a stored document: the `writer: ""` branch
(the `$exists: false` / `null` branches cannot hold for a mandatory string
field). -/
def emptyWriterMatch (l : MongoLock) : Bool :=
  l.writer == ""

/-- Mongo `$addToSet`: append the element unless already present. -/
def addToSet (xs : List String) (x : String) : List String :=
  if xs.contains x then xs else xs ++ [x]

/-- Atomic `deleteOne` against the `lockID` slot: deletes the document iff it
matches the filter. -/
def deleteOneBy (p : MongoLock → Bool) (s : LockStore) : DeleteResult × LockStore :=
  match s with
  | some l => if p l then (⟨1⟩, none) else (⟨0⟩, s)
  | none => (⟨0⟩, s)

/-- Atomic `updateOne` (no upsert) against the `lockID` slot: applies `f` to
the document iff it matches the filter. -/
def updateOneBy (p : MongoLock → Bool) (f : MongoLock → MongoLock) (s : LockStore) :
    UpdateResult × LockStore :=
  match s with
  | some l => if p l then (⟨1, 0⟩, some (f l)) else (⟨0, 0⟩, s)
  | none => (⟨0, 0⟩, s)

namespace RWMutex

/-! ## `lock()` — acquire the write lock (one attempt, `part_003` lines 104-131) -/

/-- The filter of `lock()`'s `updateOne`:
`{ lockID, $and: [emptyReadersQuery, writerQuery] }` where `writerQuery` is
`emptyWriterQuery` with the extra disjunct `{ writer: clientID }` pushed onto
its `$or`. -/
def lockFilterMatch (lockID clientID : String) (l : MongoLock) : Bool :=
  l.lockID == lockID && emptyReadersMatch l
    && (emptyWriterMatch l || l.writer == clientID)

/-- `lock()`'s single `updateOne(filter, { $set: { writer: clientID, readers: [] } },
{ upsert: true })` against the slot:
* filter matches the existing document → `$set` applies, `matchedCount = 1`;
* no document in the slot → upsert inserts `{ lockID, writer: clientID,
  readers: [] }` (equality field of the filter plus the `$set`), `upsertedCount = 1`;
* a document exists but fails the filter → the upsert insert collides with the
  unique index on `lockID`: duplicate-key `MongoError`. -/
def lockAttempt (lockID clientID : String) (s : LockStore) :
    StoreOutcome (UpdateResult × LockStore) :=
  match s with
  | some l =>
    if lockFilterMatch lockID clientID l then
      .ok (⟨1, 0⟩, some { l with writer := clientID, readers := [] })
    else
      .err dupKeyErr
  | none =>
    .ok (⟨0, 1⟩, some { lockID := lockID, readers := [], writer := clientID })

/-- What one iteration of a `lock()`/`rLock()` retry loop does next. -/
inductive LoopStep where
  | acquired (s : LockStore)
  | retry (s : LockStore)
  | failed (msg : String)
deriving Repr, DecidableEq

/-- The body of `lock()`'s `while` loop applied to the outcome of its
`updateOne` (lines 106-133): `matchedCount > 0 || upsertedCount > 0` returns;
a duplicate-key `MongoError` falls through to the sleep-and-retry; any other
exception is rethrown as
`error acquiring lock ${lockID}` (+ `: ${err.message}` when an `Error`). -/
def lockHandleOutcome (lockID : String)
    (o : StoreOutcome (UpdateResult × LockStore)) (s : LockStore) : LoopStep :=
  match o with
  | .ok (r, s') =>
    if r.matchedCount > 0 || r.upsertedCount > 0 then .acquired s' else .retry s'
  | .err e =>
    if !(e.isMongoError && e.code == DuplicateKeyErrorCode) then
      .failed ("error acquiring lock " ++ lockID
        ++ (if e.isError then ": " ++ e.message else ""))
    else
      .retry s

/-- One full iteration of `lock()` against the slot. -/
def lockStep (lockID clientID : String) (s : LockStore) : LoopStep :=
  lockHandleOutcome lockID (lockAttempt lockID clientID s) s

/-! ## `unlock()` — release the write lock (`part_003` lines 141-177) -/

/-- Filter of `unlock()`'s `deleteOne`:
`{ lockID, writer: clientID, $or: emptyReadersQuery["$or"] }`. -/
def unlockDeleteMatch (lockID clientID : String) (l : MongoLock) : Bool :=
  l.lockID == lockID && l.writer == clientID && emptyReadersMatch l

/-- Filter of `unlock()`'s fallback `updateOne`: `{ lockID, writer: clientID }`. -/
def unlockUpdateMatch (lockID clientID : String) (l : MongoLock) : Bool :=
  l.lockID == lockID && l.writer == clientID

/-- `unlock()`: `deleteOne` the document when this client is the writer and no
readers remain; otherwise `updateOne` setting `writer: ""`; if the update
matched nothing, throw
`lock ${lockID} not currently held by client: ${clientID}`. -/
def unlock (lockID clientID : String) (s : LockStore) : Except String LockStore :=
  let dr := deleteOneBy (unlockDeleteMatch lockID clientID) s
  if dr.1.deletedCount > 0 then
    .ok dr.2
  else
    let ur := updateOneBy (unlockUpdateMatch lockID clientID)
      (fun l => { l with writer := "" }) dr.2
    if ur.1.matchedCount == 0 then
      .error ("lock " ++ lockID ++ " not currently held by client: " ++ clientID)
    else
      .ok ur.2

/-! ## `rLock()` — acquire the read lock (one attempt, lines 297-326) -/

/-- Filter of `rLock()`'s `updateOne`: `{ lockID, $or: emptyWriterQuery["$or"] }`. -/
def rLockFilterMatch (lockID : String) (l : MongoLock) : Bool :=
  l.lockID == lockID && emptyWriterMatch l

/-- `rLock()`'s single `updateOne(filter, { $set: { writer: "" },
$addToSet: { readers: clientID } }, { upsert: true })` against the slot.  Same
duplicate-key behaviour as `lockAttempt` when a document exists but has a
writer. -/
def rLockAttempt (lockID clientID : String) (s : LockStore) :
    StoreOutcome (UpdateResult × LockStore) :=
  match s with
  | some l =>
    if rLockFilterMatch lockID l then
      .ok (⟨1, 0⟩, some { l with writer := "", readers := addToSet l.readers clientID })
    else
      .err dupKeyErr
  | none =>
    .ok (⟨0, 1⟩, some { lockID := lockID, readers := [clientID], writer := "" })

/-- One full iteration of `rLock()` against the slot; its `catch` block
(lines 316-324) is textually identical to `lock()`'s. -/
def rLockStep (lockID clientID : String) (s : LockStore) : LoopStep :=
  lockHandleOutcome lockID (rLockAttempt lockID clientID s) s

/-! ## `rUnlock()` — release the read lock (lines 334-370) -/

/-- Filter of `rUnlock()`'s `deleteOne`:
`{ lockID, $or: emptyWriterQuery["$or"], readers: { $size: 1, $all: [clientID] } }`. -/
def rUnlockDeleteMatch (lockID clientID : String) (l : MongoLock) : Bool :=
  l.lockID == lockID && emptyWriterMatch l
    && (l.readers.length == 1 && l.readers.contains clientID)

/-- Filter of `rUnlock()`'s fallback `updateOne`: `{ lockID, readers: clientID }`
(the array field matches when it contains the element). -/
def rUnlockUpdateMatch (lockID clientID : String) (l : MongoLock) : Bool :=
  l.lockID == lockID && l.readers.contains clientID

/-- `rUnlock()`: `deleteOne` when this client is the sole reader and there is
no writer; otherwise `updateOne` with `$pull: { readers: clientID }`; if the
update matched nothing, throw
`lock ${lockID} not currently held by client: ${clientID}`. -/
def rUnlock (lockID clientID : String) (s : LockStore) : Except String LockStore :=
  let dr := deleteOneBy (rUnlockDeleteMatch lockID clientID) s
  if dr.1.deletedCount > 0 then
    .ok dr.2
  else
    let ur := updateOneBy (rUnlockUpdateMatch lockID clientID)
      (fun l => { l with readers := l.readers.filter (fun r => r ≠ clientID) }) dr.2
    if ur.1.matchedCount == 0 then
      .error ("lock " ++ lockID ++ " not currently held by client: " ++ clientID)
    else
      .ok ur.2

/-! ## `tryOverrideLockWriter(oldWriter, upsert)` (lines 186-225) -/

/-- `overrideWriterSwitchedError = "lock already held by another writer"`. -/
def overrideWriterSwitchedError : String := "lock already held by another writer"

/-- Filter of `tryOverrideLockWriter`'s `updateOne`: `{ lockID, $or: writerQuery["$or"] }`
where `writerQuery` is `emptyWriterQuery` with the extra disjunct
`{ writer: oldWriter }` pushed onto its `$or`.  Note: unlike `lock()`, no
condition on `readers`. -/
def overrideFilterMatch (lockID oldWriter : String) (l : MongoLock) : Bool :=
  l.lockID == lockID && (emptyWriterMatch l || l.writer == oldWriter)

/-- `tryOverrideLockWriter`'s single `updateOne(filter, { $set: { writer: clientID },
$setOnInsert: { readers: [] } }, { upsert })` against the slot:
* filter matches → `$set` applies (`$setOnInsert` has no effect on a match);
* slot empty, `upsert` → insert `{ lockID, writer: clientID, readers: [] }`;
* slot empty, no `upsert` → `matchedCount = 0, upsertedCount = 0`;
* document exists but fails the filter: with `upsert` the insert collides with
  the unique index (duplicate key); without, `matchedCount = 0`. -/
def overrideUpdate (lockID oldWriter clientID : String) (upsert : Bool) (s : LockStore) :
    StoreOutcome (UpdateResult × LockStore) :=
  match s with
  | some l =>
    if overrideFilterMatch lockID oldWriter l then
      .ok (⟨1, 0⟩, some { l with writer := clientID })
    else if upsert then
      .err dupKeyErr
    else
      .ok (⟨0, 0⟩, s)
  | none =>
    if upsert then
      .ok (⟨0, 1⟩, some { lockID := lockID, readers := [], writer := clientID })
    else
      .ok (⟨0, 0⟩, none)

/-- The control flow of `tryOverrideLockWriter` around the outcome of its
`updateOne` (lines 186-225):
* `matchedCount > 0 || upsertedCount > 0` → return;
* duplicate-key `MongoError` → throw
  `error overriding lock ${lockID}: lock already held by another writer`;
* any other exception → throw `error overriding lock ${lockID}`
  (+ `: ${err.message}` when an `Error`);
* otherwise `upsert = false` → throw `...: lock not found`;
* otherwise → throw `...: lock not found, upsert failed`. -/
def tryOverrideHandleOutcome (lockID : String)
    (o : StoreOutcome (UpdateResult × LockStore)) (upsert : Bool) :
    Except String LockStore :=
  match o with
  | .ok (r, s') =>
    if r.matchedCount > 0 || r.upsertedCount > 0 then
      .ok s'
    else if !upsert then
      .error ("error overriding lock " ++ lockID ++ ": lock not found")
    else
      .error ("error overriding lock " ++ lockID ++ ": lock not found, upsert failed")
  | .err e =>
    if e.isMongoError && e.code == DuplicateKeyErrorCode then
      .error ("error overriding lock " ++ lockID ++ ": " ++ overrideWriterSwitchedError)
    else
      .error ("error overriding lock " ++ lockID
        ++ (if e.isError then ": " ++ e.message else ""))

/-- `tryOverrideLockWriter(oldWriter, upsert)` against the slot. -/
def tryOverrideLockWriter (lockID clientID oldWriter : String) (upsert : Bool)
    (s : LockStore) : Except String LockStore :=
  tryOverrideHandleOutcome lockID (overrideUpdate lockID oldWriter clientID upsert s) upsert

/-! ## `conditionalOverrideLockWriter(conditional, upsert, timeout)` (lines 235-278)

The loop body performs a non-atomic read – decide – write: `findOne` may
observe one store state while the `tryOverrideLockWriter` executes against a
later one (other processes run during the asynchronous `conditional`).  We
model this with two environment functions, `reads i` (the state `findOne`
returns at iteration `i`) and `writes i` (the state the write of iteration `i`
executes against), a pure decision function `cond` standing for the awaited
predicate, and `elapsed i` = `Date.now() - start` at iteration `i`'s `while`
check.  The JavaScript loop has no fuel; `fuel` only truncates the unfolding,
and exhaustion is reported as a distinct `outOfFuel` outcome. -/

/-- Observable actions of one `conditionalOverrideLockWriter` run, in order. -/
inductive CondEvent where
  | readRec (s : LockStore)
  | predEval (oldWriter newWriter : String) (ans : Bool)
  | writeAttempt (oldWriter : String) (res : Except String LockStore)
  | slept
deriving Repr

/-- How a (truncated) `conditionalOverrideLockWriter` run ends. -/
inductive CondResult where
  | returned (b : Bool)
  | threw (msg : String)
  | outOfFuel
deriving Repr, DecidableEq

/-- `String.prototype.includes`: `pat` occurs as a contiguous substring. -/
def strIncludes (s pat : String) : Bool :=
  go s.data
where
  /-- some suffix of the character list has `pat` as a prefix -/
  go : List Char → Bool
  | [] => pat.data.isPrefixOf []
  | c :: cs => pat.data.isPrefixOf (c :: cs) || go cs

/-- The `while (Date.now() - start < timeout)` loop of
`conditionalOverrideLockWriter`, iteration `i`, producing the event trace and
the outcome.  Mirrors lines 240-277:
absent record without upsert → `false`; absent with upsert →
`tryOverrideLockWriter("", upsert)`; present → await the conditional on the
observed writer, `false` → return `false`, `true` →
`tryOverrideLockWriter(observedWriter, upsert)`; a thrown error whose message
includes `overrideWriterSwitchedError` → sleep and continue; any other error
propagates; loop exit → throw
`timeout for overriding lock writer exceeded`. -/
def condLoop (lockID clientID : String) (cond : String → String → Bool)
    (upsert : Bool) (timeout : Int) (reads writes : Nat → LockStore)
    (elapsed : Nat → Nat) : Nat → Nat → List CondEvent × CondResult
  | 0, _ => ([], .outOfFuel)
  | fuel + 1, i =>
    if (elapsed i : Int) < timeout then
      match reads i with
      | none =>
        if !upsert then
          ([.readRec none], .returned false)
        else
          match tryOverrideLockWriter lockID clientID "" upsert (writes i) with
          | .ok s' =>
            ([.readRec none, .writeAttempt "" (.ok s')], .returned true)
          | .error msg =>
            if strIncludes msg overrideWriterSwitchedError then
              let rest := condLoop lockID clientID cond upsert timeout reads writes
                elapsed fuel (i + 1)
              (.readRec none :: .writeAttempt "" (.error msg) :: .slept :: rest.1, rest.2)
            else
              ([.readRec none, .writeAttempt "" (.error msg)], .threw msg)
      | some l =>
        let ans := cond l.writer clientID
        if ans then
          match tryOverrideLockWriter lockID clientID l.writer upsert (writes i) with
          | .ok s' =>
            ([.readRec (some l), .predEval l.writer clientID ans,
              .writeAttempt l.writer (.ok s')], .returned true)
          | .error msg =>
            if strIncludes msg overrideWriterSwitchedError then
              let rest := condLoop lockID clientID cond upsert timeout reads writes
                elapsed fuel (i + 1)
              (.readRec (some l) :: .predEval l.writer clientID ans
                :: .writeAttempt l.writer (.error msg) :: .slept :: rest.1, rest.2)
            else
              ([.readRec (some l), .predEval l.writer clientID ans,
                .writeAttempt l.writer (.error msg)], .threw msg)
        else
          ([.readRec (some l), .predEval l.writer clientID ans], .returned false)
    else
      ([], .threw "timeout for overriding lock writer exceeded")

end RWMutex

/-! ## Spec §3 invariant (b) and the interleaving model

`writerReadersExclusive` is invariant (b) of the spec's data model: a
non-empty `writer` implies empty `readers`.

For mutual exclusion (spec §8) we interleave atomic store operations of many
processes on the shared slot.  Each process beside the store operations keeps
the only per-process knowledge the protocol gives it: whether its last
`lock()` returned successfully without a subsequent `unlock()` — i.e. whether
it currently observes itself holding the writer role. -/

/-- Invariant (b) of the spec's data model: `writer` non-empty implies
`readers` empty. -/
def writerReadersExclusive (s : LockStore) : Bool :=
  match s with
  | none => true
  | some l => l.writer == "" || l.readers.isEmpty

/-- One atomic protocol action by one process (identified by its `clientID`):
a `lock()` loop iteration, an `unlock()`, an `rLock()` loop iteration, or an
`rUnlock()`. -/
inductive ProtoOp where
  | opLock (c : String)
  | opUnlock (c : String)
  | opRLock (c : String)
  | opRUnlock (c : String)
deriving Repr, DecidableEq

/-- The `clientID` performing the action. -/
def ProtoOp.client : ProtoOp → String
  | .opLock c => c
  | .opUnlock c => c
  | .opRLock c => c
  | .opRUnlock c => c

/-- Shared store slot plus, for each process, whether it currently observes
itself holding the writer role (`wHolders` lists those that do). -/
structure SysState where
  store : LockStore
  wHolders : List String
deriving Repr, DecidableEq

/-- Before any operation: no lock record, nobody holds. -/
def initState : SysState := ⟨none, []⟩

/-- Record that `c` now observes itself holding the writer role. -/
def insertHolder (c : String) (hs : List String) : List String :=
  if hs.contains c then hs else c :: hs

/-- Effect of one atomic protocol action on the shared slot and on the acting
process's observation.  A successful `lock()` iteration returns from `lock()`,
so the caller starts observing itself as the writer; calling `unlock()` ends
that observation (whether or not the release finds the lock held); `rLock()` /
`rUnlock()` do not touch the writer-role observation. -/
def protoStep (lockID : String) (st : SysState) (op : ProtoOp) : SysState :=
  match op with
  | .opLock c =>
    match RWMutex.lockStep lockID c st.store with
    | .acquired s' => ⟨s', insertHolder c st.wHolders⟩
    | .retry s' => ⟨s', st.wHolders⟩
    | .failed _ => st
  | .opUnlock c =>
    match RWMutex.unlock lockID c st.store with
    | .ok s' => ⟨s', st.wHolders.filter (fun x => x ≠ c)⟩
    | .error _ => ⟨st.store, st.wHolders.filter (fun x => x ≠ c)⟩
  | .opRLock c =>
    match RWMutex.rLockStep lockID c st.store with
    | .acquired s' => ⟨s', st.wHolders⟩
    | .retry s' => ⟨s', st.wHolders⟩
    | .failed _ => st
  | .opRUnlock c =>
    match RWMutex.rUnlock lockID c st.store with
    | .ok s' => ⟨s', st.wHolders⟩
    | .error _ => st

/-- Run an arbitrary interleaving (list of atomic actions by arbitrary
processes) from the initial state. -/
def runProto (lockID : String) (ops : List ProtoOp) : SysState :=
  ops.foldl (protoStep lockID) initState

/-- The inductive invariant for mutual exclusion: every process observing
itself as writer has a non-empty identity, and the stored document's `writer`
field equals that identity. -/
def WriterInv (st : SysState) : Prop :=
  ∀ c ∈ st.wHolders, c ≠ "" ∧ ∃ l, st.store = some l ∧ l.writer = c

namespace RWMutex

/-! ## Claims -/

/-- C1: each `lock()` attempt issues exactly one atomic conditional update
with upsert enabled (the definition `lockAttempt` embeds that single
`updateOne` call); its filter requires the `lockID` to match, readers to be
empty, and the writer to be empty or already equal to the caller's `clientID`;
the update sets `writer = clientID` and `readers = []` (on upsert the created
record is `{ lockID, readers: [], writer: clientID }`); and `lock()` returns
successfully from an attempt exactly when the operation reports
`matchedCount > 0` or `upsertedCount > 0` — in particular a holder
re-acquiring its own write lock succeeds without blocking. -/
theorem lock_spec (lockID clientID : String) (s : LockStore) :
    (∀ l : MongoLock, lockFilterMatch lockID clientID l = true ↔
       (l.lockID = lockID ∧ l.readers = [] ∧ (l.writer = "" ∨ l.writer = clientID))) ∧
    (∀ l : MongoLock, s = some l → lockFilterMatch lockID clientID l = true →
       lockAttempt lockID clientID s =
         .ok (⟨1, 0⟩, some { l with writer := clientID, readers := [] })) ∧
    (s = none →
       lockAttempt lockID clientID s =
         .ok (⟨0, 1⟩, some ⟨lockID, [], clientID⟩)) ∧
    (∀ (r : UpdateResult) (s' : LockStore),
       lockHandleOutcome lockID (.ok (r, s')) s = .acquired s' ↔
         (0 < r.matchedCount ∨ 0 < r.upsertedCount)) ∧
    (s = some ⟨lockID, [], clientID⟩ →
       lockStep lockID clientID s = .acquired s) := by
  refine ⟨?_, ?_, ?_, ?_, ?_⟩
  · intro l
    simp [lockFilterMatch, emptyReadersMatch, emptyWriterMatch,
      List.isEmpty_iff, and_assoc]
  · intro l hs hm
    subst hs
    simp [lockAttempt, hm]
  · intro hs
    subst hs
    rfl
  · intro r s'
    by_cases h : 0 < r.matchedCount ∨ 0 < r.upsertedCount
    · simp [lockHandleOutcome, h]
    · push_neg at h
      simp [lockHandleOutcome, Nat.le_zero.mp h.1, Nat.le_zero.mp h.2]
  · intro hs
    subst hs
    simp [lockStep, lockAttempt, lockFilterMatch, emptyReadersMatch,
      emptyWriterMatch, lockHandleOutcome]

/-- Witness for `lock_spec`: a free record is acquired by update, an absent
record by upsert, and a record already written by this client is re-acquired
unchanged. -/
theorem lock_spec_witness :
    lockAttempt "L" "c1" (some ⟨"L", [], ""⟩) = .ok (⟨1, 0⟩, some ⟨"L", [], "c1"⟩) ∧
    lockAttempt "L" "c1" none = .ok (⟨0, 1⟩, some ⟨"L", [], "c1"⟩) ∧
    lockStep "L" "c1" (some ⟨"L", [], "c1"⟩) = .acquired (some ⟨"L", [], "c1"⟩) :=
  ⟨(lock_spec "L" "c1" (some ⟨"L", [], ""⟩)).2.1 ⟨"L", [], ""⟩ rfl (by decide),
   (lock_spec "L" "c1" none).2.2.1 rfl,
   (lock_spec "L" "c1" (some ⟨"L", [], "c1"⟩)).2.2.2.2 rfl⟩

/-- C3: `unlock()` first issues one atomic conditional delete whose filter
requires `writer == clientID` and empty readers and returns successfully when
it deletes the record; otherwise it issues one atomic conditional update with
filter `writer == clientID` setting `writer` to the empty string and returns
successfully when that matched; when neither matched anything it throws
`lock ${lockID} not currently held by client: ${clientID}`. -/
theorem unlock_spec (lockID clientID : String) (s : LockStore) :
    (∀ l : MongoLock, unlockDeleteMatch lockID clientID l = true ↔
       (l.lockID = lockID ∧ l.writer = clientID ∧ l.readers = [])) ∧
    (∀ l : MongoLock, unlockUpdateMatch lockID clientID l = true ↔
       (l.lockID = lockID ∧ l.writer = clientID)) ∧
    (∀ l : MongoLock, s = some l → unlockDeleteMatch lockID clientID l = true →
       unlock lockID clientID s = .ok none) ∧
    (∀ l : MongoLock, s = some l → unlockDeleteMatch lockID clientID l = false →
       unlockUpdateMatch lockID clientID l = true →
       unlock lockID clientID s = .ok (some { l with writer := "" })) ∧
    ((∀ l : MongoLock, s = some l → unlockUpdateMatch lockID clientID l = false) →
       unlock lockID clientID s =
         .error ("lock " ++ lockID ++ " not currently held by client: " ++ clientID)) := by
  refine ⟨?_, ?_, ?_, ?_, ?_⟩
  · intro l
    simp [unlockDeleteMatch, emptyReadersMatch, List.isEmpty_iff, and_assoc]
  · intro l
    simp [unlockUpdateMatch]
  · intro l hs hm
    subst hs
    simp [unlock, deleteOneBy, hm]
  · intro l hs hd hu
    subst hs
    simp [unlock, deleteOneBy, updateOneBy, hd, hu]
  · intro h
    match hs : s with
    | none => simp [unlock, deleteOneBy, updateOneBy]
    | some l =>
      have hu := h l rfl
      have hd : unlockDeleteMatch lockID clientID l = false := by
        simp only [unlockDeleteMatch] at *
        simp only [unlockUpdateMatch] at hu
        simp_all
      simp [unlock, deleteOneBy, updateOneBy, hd, hu]

/-- Witness for `unlock_spec`: sole writer → record deleted; writer with a
(pathological) reader → writer cleared; non-holder → NotHeld message. -/
theorem unlock_spec_witness :
    unlock "L" "c1" (some ⟨"L", [], "c1"⟩) = .ok none ∧
    unlock "L" "c1" (some ⟨"L", ["r"], "c1"⟩) = .ok (some ⟨"L", ["r"], ""⟩) ∧
    unlock "L" "c1" (some ⟨"L", [], "c2"⟩) =
      .error "lock L not currently held by client: c1" :=
  ⟨(unlock_spec "L" "c1" (some ⟨"L", [], "c1"⟩)).2.2.1 ⟨"L", [], "c1"⟩ rfl (by decide),
   (unlock_spec "L" "c1" (some ⟨"L", ["r"], "c1"⟩)).2.2.2.1 ⟨"L", ["r"], "c1"⟩ rfl
     (by decide) (by decide),
   (unlock_spec "L" "c1" (some ⟨"L", [], "c2"⟩)).2.2.2.2
     (by intro l hl; cases hl; decide)⟩

/-- C4: `rUnlock()` deletes the record entirely exactly when `clientID` is the
sole reader and the writer is empty; otherwise it atomically removes
`clientID` from the readers (retaining the record with the remaining
readers); when `clientID` was not a current reader it throws
`lock ${lockID} not currently held by client: ${clientID}`. -/
theorem rUnlock_spec (lockID clientID : String) (s : LockStore) :
    (∀ l : MongoLock, rUnlockDeleteMatch lockID clientID l = true ↔
       (l.lockID = lockID ∧ l.writer = "" ∧ l.readers = [clientID])) ∧
    (∀ l : MongoLock, s = some l → rUnlockDeleteMatch lockID clientID l = true →
       rUnlock lockID clientID s = .ok none) ∧
    (∀ l : MongoLock, s = some l → rUnlockDeleteMatch lockID clientID l = false →
       rUnlockUpdateMatch lockID clientID l = true →
       rUnlock lockID clientID s =
         .ok (some { l with readers := l.readers.filter (fun r => r ≠ clientID) })) ∧
    ((∀ l : MongoLock, s = some l → rUnlockUpdateMatch lockID clientID l = false) →
       rUnlock lockID clientID s =
         .error ("lock " ++ lockID ++ " not currently held by client: " ++ clientID)) := by
  refine ⟨?_, ?_, ?_, ?_⟩
  · intro l
    simp only [rUnlockDeleteMatch, emptyWriterMatch, Bool.and_eq_true, beq_iff_eq,
      List.elem_iff]
    constructor
    · rintro ⟨⟨h1, h2⟩, h3, h4⟩
      refine ⟨h1, h2, ?_⟩
      cases hr : l.readers with
      | nil => rw [hr] at h4; simp at h4
      | cons x t =>
        rw [hr] at h3 h4
        cases t with
        | nil => simp at h4; rw [h4]
        | cons y t' => simp at h3
    · rintro ⟨h1, h2, h3⟩
      refine ⟨⟨h1, h2⟩, ?_, ?_⟩
      · rw [h3]; rfl
      · rw [h3]; exact List.mem_singleton_self clientID
  · intro l hs hm
    subst hs
    simp [rUnlock, deleteOneBy, hm]
  · intro l hs hd hu
    subst hs
    simp [rUnlock, deleteOneBy, updateOneBy, hd, hu]
  · intro h
    match hs : s with
    | none => simp [rUnlock, deleteOneBy, updateOneBy]
    | some l =>
      have hu := h l rfl
      have hd : rUnlockDeleteMatch lockID clientID l = false := by
        simp only [rUnlockDeleteMatch] at *
        simp only [rUnlockUpdateMatch] at hu
        simp_all
      simp [rUnlock, deleteOneBy, updateOneBy, hd, hu]

/-- Witness for `rUnlock_spec`: sole reader → record deleted; one of two
readers → removed, record retained with the other reader; non-reader →
NotHeld message. -/
theorem rUnlock_spec_witness :
    rUnlock "L" "c1" (some ⟨"L", ["c1"], ""⟩) = .ok none ∧
    rUnlock "L" "c1" (some ⟨"L", ["c1", "c2"], ""⟩) = .ok (some ⟨"L", ["c2"], ""⟩) ∧
    rUnlock "L" "c1" (some ⟨"L", ["c2"], ""⟩) =
      .error "lock L not currently held by client: c1" :=
  ⟨(rUnlock_spec "L" "c1" (some ⟨"L", ["c1"], ""⟩)).2.1 ⟨"L", ["c1"], ""⟩ rfl (by decide),
   (rUnlock_spec "L" "c1" (some ⟨"L", ["c1", "c2"], ""⟩)).2.2.1
     ⟨"L", ["c1", "c2"], ""⟩ rfl (by decide) (by decide),
   (rUnlock_spec "L" "c1" (some ⟨"L", ["c2"], ""⟩)).2.2.2
     (by intro l hl; cases hl; decide)⟩

/-- C5: `tryOverrideLockWriter(oldWriter, upsert)` issues one atomic
conditional update whose filter requires the writer to be empty or equal to
`oldWriter`, setting `writer = clientID` and seeding `readers = []` only on
creation; a match or upsert returns success; a duplicate-key conflict from the
unique index raises the distinguishable WriterSwitched message; and when the
operation neither matched nor upserted it throws `...: lock not found` when
`upsert = false` and `...: lock not found, upsert failed` when `upsert = true`. -/
theorem tryOverride_spec (lockID clientID oldWriter : String) (upsert : Bool)
    (s : LockStore) :
    (∀ l : MongoLock, overrideFilterMatch lockID oldWriter l = true ↔
       (l.lockID = lockID ∧ (l.writer = "" ∨ l.writer = oldWriter))) ∧
    (∀ l : MongoLock, s = some l → overrideFilterMatch lockID oldWriter l = true →
       tryOverrideLockWriter lockID clientID oldWriter upsert s =
         .ok (some { l with writer := clientID })) ∧
    (s = none → upsert = true →
       tryOverrideLockWriter lockID clientID oldWriter upsert s =
         .ok (some ⟨lockID, [], clientID⟩)) ∧
    (∀ e : StoreErr, e.isDuplicateKey = true →
       tryOverrideHandleOutcome lockID (.err e) upsert =
         .error ("error overriding lock " ++ lockID ++ ": "
           ++ overrideWriterSwitchedError)) ∧
    (∀ l : MongoLock, s = some l → overrideFilterMatch lockID oldWriter l = false →
       upsert = true →
       tryOverrideLockWriter lockID clientID oldWriter upsert s =
         .error ("error overriding lock " ++ lockID ++ ": "
           ++ overrideWriterSwitchedError)) ∧
    (∀ s' : LockStore, tryOverrideHandleOutcome lockID (.ok (⟨0, 0⟩, s')) false =
       .error ("error overriding lock " ++ lockID ++ ": lock not found")) ∧
    (∀ s' : LockStore, tryOverrideHandleOutcome lockID (.ok (⟨0, 0⟩, s')) true =
       .error ("error overriding lock " ++ lockID ++ ": lock not found, upsert failed")) ∧
    (s = none → upsert = false →
       tryOverrideLockWriter lockID clientID oldWriter upsert s =
         .error ("error overriding lock " ++ lockID ++ ": lock not found")) := by
  refine ⟨?_, ?_, ?_, ?_, ?_, ?_, ?_, ?_⟩
  · intro l
    simp [overrideFilterMatch, emptyWriterMatch]
  · intro l hs hm
    subst hs
    simp [tryOverrideLockWriter, overrideUpdate, hm, tryOverrideHandleOutcome]
  · intro hs hu
    subst hs; subst hu
    rfl
  · intro e he
    simp only [StoreErr.isDuplicateKey, Bool.and_eq_true, beq_iff_eq] at he
    simp [tryOverrideHandleOutcome, he.1, he.2, DuplicateKeyErrorCode]
  · intro l hs hm hu
    subst hs; subst hu
    simp [tryOverrideLockWriter, overrideUpdate, hm, tryOverrideHandleOutcome,
      dupKeyErr, DuplicateKeyErrorCode]
  · intro s'
    rfl
  · intro s'
    rfl
  · intro hs hu
    subst hs; subst hu
    rfl

/-- Witness for `tryOverride_spec`: observed writer matches → overridden;
absent + upsert → created; stale writer + upsert → WriterSwitched message;
absent without upsert → lock not found. -/
theorem tryOverride_spec_witness :
    tryOverrideLockWriter "L" "c2" "w1" true (some ⟨"L", [], "w1"⟩) =
      .ok (some ⟨"L", [], "c2"⟩) ∧
    tryOverrideLockWriter "L" "c2" "w1" true none = .ok (some ⟨"L", [], "c2"⟩) ∧
    tryOverrideLockWriter "L" "c2" "w1" true (some ⟨"L", [], "w9"⟩) =
      .error "error overriding lock L: lock already held by another writer" ∧
    tryOverrideLockWriter "L" "c2" "w1" false none =
      .error "error overriding lock L: lock not found" :=
  ⟨(tryOverride_spec "L" "c2" "w1" true (some ⟨"L", [], "w1"⟩)).2.1
     ⟨"L", [], "w1"⟩ rfl (by decide),
   (tryOverride_spec "L" "c2" "w1" true none).2.2.1 rfl rfl,
   (tryOverride_spec "L" "c2" "w1" true (some ⟨"L", [], "w9"⟩)).2.2.2.2.1
     ⟨"L", [], "w9"⟩ rfl (by decide) rfl,
   (tryOverride_spec "L" "c2" "w1" false none).2.2.2.2.2.2.2 rfl rfl⟩

/-- C2 counterexample: `tryOverrideLockWriter`'s filter has no condition on
`readers`, so overriding a record held by readers (`writer = ""`,
`readers = ["r1"]` — a record satisfying invariant (b)) succeeds and leaves
both a non-empty writer and non-empty readers. -/
theorem writer_readers_exclusive_cex :
    writerReadersExclusive (some ⟨"L", ["r1"], ""⟩) = true ∧
    tryOverrideLockWriter "L" "c2" "w0" true (some ⟨"L", ["r1"], ""⟩) =
      .ok (some ⟨"L", ["r1"], "c2"⟩) ∧
    writerReadersExclusive (some ⟨"L", ["r1"], "c2"⟩) = false :=
  ⟨rfl, rfl, rfl⟩

/-- C2 amended: `lock`, `unlock`, `rLock` and `rUnlock` preserve invariant (b)
(`writer` non-empty implies `readers` empty); the override operations preserve
it only when the record they rewrite has empty readers (they break it on any
readers-held record, see `writer_readers_exclusive_cex`). -/
theorem writer_readers_exclusive_amended (lockID clientID oldWriter : String)
    (upsert : Bool) (s : LockStore)
    (hs : writerReadersExclusive s = true) :
    (∀ s', lockStep lockID clientID s = .acquired s' →
       writerReadersExclusive s' = true) ∧
    (∀ s', lockStep lockID clientID s = .retry s' →
       writerReadersExclusive s' = true) ∧
    (∀ s', rLockStep lockID clientID s = .acquired s' →
       writerReadersExclusive s' = true) ∧
    (∀ s', rLockStep lockID clientID s = .retry s' →
       writerReadersExclusive s' = true) ∧
    (∀ s', unlock lockID clientID s = .ok s' →
       writerReadersExclusive s' = true) ∧
    (∀ s', rUnlock lockID clientID s = .ok s' →
       writerReadersExclusive s' = true) ∧
    ((∀ l : MongoLock, s = some l → l.readers = []) →
       ∀ s', tryOverrideLockWriter lockID clientID oldWriter upsert s = .ok s' →
         writerReadersExclusive s' = true) := by
  refine ⟨?_, ?_, ?_, ?_, ?_, ?_, ?_⟩
  · intro s' h
    cases s with
    | none =>
      simp only [lockStep, lockAttempt, lockHandleOutcome] at h
      simp at h
      rw [← h]
      simp [writerReadersExclusive]
    | some l =>
      by_cases hm : lockFilterMatch lockID clientID l = true
      · simp only [lockStep, lockAttempt, hm, if_true, lockHandleOutcome] at h
        simp at h
        rw [← h]
        simp [writerReadersExclusive]
      · simp only [lockStep, lockAttempt, hm, if_false, Bool.not_eq_true] at h
        simp only [hm, Bool.false_eq_true, if_false, lockHandleOutcome, dupKeyErr,
          DuplicateKeyErrorCode] at h
        simp at h
  · intro s' h
    cases s with
    | none =>
      simp only [lockStep, lockAttempt, lockHandleOutcome] at h
      simp at h
    | some l =>
      by_cases hm : lockFilterMatch lockID clientID l = true
      · simp only [lockStep, lockAttempt, hm, if_true, lockHandleOutcome] at h
        simp at h
      · simp only [lockStep, lockAttempt, hm, Bool.false_eq_true, if_false,
          lockHandleOutcome, dupKeyErr, DuplicateKeyErrorCode] at h
        simp at h
        rw [← h]
        exact hs
  · intro s' h
    cases s with
    | none =>
      simp only [rLockStep, rLockAttempt, lockHandleOutcome] at h
      simp at h
      rw [← h]
      rfl
    | some l =>
      by_cases hm : rLockFilterMatch lockID l = true
      · simp only [rLockStep, rLockAttempt, hm, if_true, lockHandleOutcome] at h
        simp at h
        rw [← h]
        simp [writerReadersExclusive]
      · simp only [rLockStep, rLockAttempt, hm, Bool.false_eq_true, if_false,
          lockHandleOutcome, dupKeyErr, DuplicateKeyErrorCode] at h
        simp at h
  · intro s' h
    cases s with
    | none =>
      simp only [rLockStep, rLockAttempt, lockHandleOutcome] at h
      simp at h
    | some l =>
      by_cases hm : rLockFilterMatch lockID l = true
      · simp only [rLockStep, rLockAttempt, hm, if_true, lockHandleOutcome] at h
        simp at h
      · simp only [rLockStep, rLockAttempt, hm, Bool.false_eq_true, if_false,
          lockHandleOutcome, dupKeyErr, DuplicateKeyErrorCode] at h
        simp at h
        rw [← h]
        exact hs
  · intro s' h
    cases s with
    | none => simp [unlock, deleteOneBy, updateOneBy] at h
    | some l =>
      by_cases hd : unlockDeleteMatch lockID clientID l = true
      · simp only [unlock, deleteOneBy, hd, if_true] at h
        simp at h
        rw [← h]
        rfl
      · simp only [unlock, deleteOneBy, hd, Bool.false_eq_true, if_false] at h
        by_cases hu : unlockUpdateMatch lockID clientID l = true
        · simp only [updateOneBy, hu, if_true] at h
          simp at h
          rw [← h]
          simp [writerReadersExclusive]
        · simp only [updateOneBy, hu, Bool.false_eq_true, if_false] at h
          simp at h
  · intro s' h
    cases s with
    | none => simp [rUnlock, deleteOneBy, updateOneBy] at h
    | some l =>
      by_cases hd : rUnlockDeleteMatch lockID clientID l = true
      · simp only [rUnlock, deleteOneBy, hd, if_true] at h
        simp at h
        rw [← h]
        rfl
      · simp only [rUnlock, deleteOneBy, hd, Bool.false_eq_true, if_false] at h
        by_cases hu : rUnlockUpdateMatch lockID clientID l = true
        · simp only [updateOneBy, hu, if_true] at h
          simp at h
          rw [← h]
          simp only [writerReadersExclusive] at hs ⊢
          rcases Bool.or_eq_true_iff.mp hs with hw | hr
          · exact Bool.or_eq_true_iff.mpr (Or.inl hw)
          · refine Bool.or_eq_true_iff.mpr (Or.inr ?_)
            rw [List.isEmpty_iff] at hr ⊢
            simp [hr]
        · simp only [updateOneBy, hu, Bool.false_eq_true, if_false] at h
          simp at h
  · intro hre s' h
    cases s with
    | none =>
      cases hu : upsert with
      | false =>
        rw [hu] at h
        simp [tryOverrideLockWriter, overrideUpdate, tryOverrideHandleOutcome] at h
      | true =>
        rw [hu] at h
        simp only [tryOverrideLockWriter, overrideUpdate, if_true,
          tryOverrideHandleOutcome] at h
        simp at h
        rw [← h]
        simp [writerReadersExclusive]
    | some l =>
      have hr : l.readers = [] := hre l rfl
      by_cases hm : overrideFilterMatch lockID oldWriter l = true
      · simp only [tryOverrideLockWriter, overrideUpdate, hm, if_true,
          tryOverrideHandleOutcome] at h
        simp at h
        rw [← h]
        simp [writerReadersExclusive, hr]
      · cases hu : upsert with
        | false =>
          rw [hu] at h
          simp only [tryOverrideLockWriter, overrideUpdate, hm, Bool.false_eq_true,
            if_false, tryOverrideHandleOutcome] at h
          simp at h
        | true =>
          rw [hu] at h
          simp only [tryOverrideLockWriter, overrideUpdate, hm, Bool.false_eq_true,
            if_false, if_true, tryOverrideHandleOutcome, dupKeyErr,
            DuplicateKeyErrorCode] at h
          simp at h

/-- Witness for `writer_readers_exclusive_amended`: a successful acquisition
and an override of an empty-readers record both leave invariant (b) intact. -/
theorem writer_readers_exclusive_amended_witness :
    writerReadersExclusive (some ⟨"L", [], "c1"⟩) = true :=
  (writer_readers_exclusive_amended "L" "c1" "w" true (some ⟨"L", [], "w"⟩)
      (by decide)).2.2.2.2.2.2
    (by intro l hl; injection hl with h; rw [← h])
    (some ⟨"L", [], "c1"⟩) rfl

/-- C8 counterexample: non-duplicate-key store failures are wrapped as
`error acquiring lock ${lockID}: ${err.message}` — the lock identifier and
the underlying message, but not the caller identity.  For a mutex with
`clientID = "c9z"` the surfaced message does not contain `"c9z"`. -/
theorem store_error_wrap_cex :
    lockHandleOutcome "L" (.err ⟨false, true, 0, "io failure"⟩) none =
      .failed "error acquiring lock L: io failure" ∧
    strIncludes "error acquiring lock L: io failure" "c9z" = false :=
  ⟨rfl, by decide⟩

/-- C8 amended: in the `lock()` and `rLock()` retry loops (whose `catch`
blocks are textually identical, both embedded by `lockHandleOutcome`), a store
error is surfaced to the caller iff it is not a duplicate-key uniqueness
conflict: duplicate-key conflicts are absorbed as a retry (sleep and loop) and
never surfaced — in particular the deterministic conflicts produced when the
filter matches nothing but a record with this `lockID` exists — while every
other store failure aborts the loop wrapped with the lock identifier and the
underlying error's message (not the caller identity). -/
theorem store_error_surfacing_amended (lockID clientID : String) (s : LockStore)
    (e : StoreErr) :
    (lockHandleOutcome lockID (.err e) s = .retry s ↔ e.isDuplicateKey = true) ∧
    (e.isDuplicateKey = false →
       lockHandleOutcome lockID (.err e) s =
         .failed ("error acquiring lock " ++ lockID
           ++ (if e.isError then ": " ++ e.message else ""))) ∧
    (∀ l : MongoLock, s = some l → lockFilterMatch lockID clientID l = false →
       lockStep lockID clientID s = .retry s) ∧
    (∀ l : MongoLock, s = some l → rLockFilterMatch lockID l = false →
       rLockStep lockID clientID s = .retry s) := by
  refine ⟨?_, ?_, ?_, ?_⟩
  · cases hd : e.isDuplicateKey with
    | true =>
      simp only [StoreErr.isDuplicateKey, Bool.and_eq_true, beq_iff_eq] at hd
      simp [lockHandleOutcome, hd.1, hd.2, DuplicateKeyErrorCode]
    | false =>
      simp only [StoreErr.isDuplicateKey] at hd
      simp [lockHandleOutcome, hd]
  · intro hd
    simp only [StoreErr.isDuplicateKey] at hd
    simp [lockHandleOutcome, hd]
  · intro l hl hm
    subst hl
    simp [lockStep, lockAttempt, hm, lockHandleOutcome, dupKeyErr, DuplicateKeyErrorCode]
  · intro l hl hm
    subst hl
    simp [rLockStep, rLockAttempt, hm, lockHandleOutcome, dupKeyErr, DuplicateKeyErrorCode]

/-- Witness for `store_error_surfacing_amended`: a non-Mongo error is
surfaced wrapped; a duplicate-key conflict (here: a second client racing a
held lock) is absorbed as a retry. -/
theorem store_error_surfacing_amended_witness :
    lockHandleOutcome "L" (.err ⟨false, true, 7, "boom"⟩) none =
      .failed "error acquiring lock L: boom" ∧
    lockStep "L" "c2" (some ⟨"L", [], "c1"⟩) = .retry (some ⟨"L", [], "c1"⟩) :=
  ⟨(store_error_surfacing_amended "L" "c2" none ⟨false, true, 7, "boom"⟩).2.1 rfl,
   (store_error_surfacing_amended "L" "c2" (some ⟨"L", [], "c1"⟩)
       ⟨false, true, 7, "boom"⟩).2.2.1 ⟨"L", [], "c1"⟩ rfl (by decide)⟩

/-- C6: when `conditionalOverrideLockWriter` enters its loop
(`Date.now() - start < timeout` at iteration 0):
* record absent, `upsert = false` → returns `false`; the trace is just the
  read — no predicate evaluation, no write;
* record absent, `upsert = true` → attempts `tryOverrideLockWriter("", upsert)`
  directly (no predicate evaluation before the write) and returns `true` on
  success;
* record present, predicate `false` on the observed writer → returns `false`;
  the trace is the read and the predicate evaluation — no write. -/
theorem condOverride_first_iteration (lockID clientID : String)
    (cond : String → String → Bool) (upsert : Bool) (timeout : Int)
    (reads writes : Nat → LockStore) (elapsed : Nat → Nat) (fuel : Nat)
    (htime : (elapsed 0 : Int) < timeout) :
    (reads 0 = none → upsert = false →
       condLoop lockID clientID cond upsert timeout reads writes elapsed (fuel + 1) 0 =
         ([.readRec none], .returned false)) ∧
    (reads 0 = none → upsert = true →
       ∀ s' : LockStore,
         tryOverrideLockWriter lockID clientID "" true (writes 0) = .ok s' →
         condLoop lockID clientID cond upsert timeout reads writes elapsed (fuel + 1) 0 =
           ([.readRec none, .writeAttempt "" (.ok s')], .returned true)) ∧
    (∀ l : MongoLock, reads 0 = some l → cond l.writer clientID = false →
       condLoop lockID clientID cond upsert timeout reads writes elapsed (fuel + 1) 0 =
         ([.readRec (some l), .predEval l.writer clientID false], .returned false)) := by
  refine ⟨?_, ?_, ?_⟩
  · intro hr hu
    subst hu
    rw [condLoop, if_pos htime, hr]
    rfl
  · intro hr hu s' hw
    subst hu
    rw [condLoop, if_pos htime, hr]
    simp only [Bool.not_true, Bool.false_eq_true, if_false, hw]
  · intro l hr hc
    rw [condLoop, if_pos htime, hr]
    simp only [hc, Bool.false_eq_true, if_false]

/-- Witness for `condOverride_first_iteration`: absent without upsert;
absent with upsert (record created); present with declining predicate. -/
theorem condOverride_first_iteration_witness :
    condLoop "L" "c1" (fun _ _ => false) false 5 (fun _ => none) (fun _ => none)
      (fun _ => 0) 1 0 = ([.readRec none], .returned false) ∧
    condLoop "L" "c1" (fun _ _ => false) true 5 (fun _ => none) (fun _ => none)
      (fun _ => 0) 1 0 =
      ([.readRec none, .writeAttempt "" (.ok (some ⟨"L", [], "c1"⟩))], .returned true) ∧
    condLoop "L" "c1" (fun _ _ => false) true 5 (fun _ => some ⟨"L", [], "w"⟩)
      (fun _ => none) (fun _ => 0) 1 0 =
      ([.readRec (some ⟨"L", [], "w"⟩), .predEval "w" "c1" false], .returned false) :=
  ⟨(condOverride_first_iteration "L" "c1" (fun _ _ => false) false 5 (fun _ => none)
      (fun _ => none) (fun _ => 0) 0 (by decide)).1 rfl rfl,
   (condOverride_first_iteration "L" "c1" (fun _ _ => false) true 5 (fun _ => none)
      (fun _ => none) (fun _ => 0) 0 (by decide)).2.1 rfl rfl
      (some ⟨"L", [], "c1"⟩) rfl,
   (condOverride_first_iteration "L" "c1" (fun _ _ => false) true 5
      (fun _ => some ⟨"L", [], "w"⟩) (fun _ => none) (fun _ => 0) 0 (by decide)).2.2
      ⟨"L", [], "w"⟩ rfl rfl⟩

/-- C7: when the write attempt of iteration `i` throws the WriterSwitched
message, the loop never concludes from the stale decision: the iteration ends
in a sleep and the run's outcome is that of the loop restarted at iteration
`i + 1`; the continuation re-reads the record and, when the loop is still
inside its deadline and the record is present, re-evaluates the predicate on
the newly read writer before any further write (the trace of the next
iteration begins with the read and that predicate evaluation); when the
deadline has elapsed instead, it throws
`timeout for overriding lock writer exceeded`. -/
theorem condOverride_staleness (lockID clientID : String)
    (cond : String → String → Bool) (upsert : Bool) (timeout : Int)
    (reads writes : Nat → LockStore) (elapsed : Nat → Nat) (fuel i : Nat)
    (l : MongoLock) (msg : String)
    (htime : (elapsed i : Int) < timeout)
    (hread : reads i = some l)
    (hcond : cond l.writer clientID = true)
    (hwrite : tryOverrideLockWriter lockID clientID l.writer upsert (writes i) =
      .error msg)
    (hsw : strIncludes msg overrideWriterSwitchedError = true) :
    (condLoop lockID clientID cond upsert timeout reads writes elapsed (fuel + 1) i =
       (.readRec (some l) :: .predEval l.writer clientID true
         :: .writeAttempt l.writer (.error msg) :: .slept
         :: (condLoop lockID clientID cond upsert timeout reads writes elapsed
              fuel (i + 1)).1,
        (condLoop lockID clientID cond upsert timeout reads writes elapsed
          fuel (i + 1)).2)) ∧
    (∀ m : Nat, (elapsed (i + 1) : Int) < timeout →
       ∀ l' : MongoLock, reads (i + 1) = some l' →
         ∃ rest, (condLoop lockID clientID cond upsert timeout reads writes elapsed
             (m + 1) (i + 1)).1 =
           .readRec (some l') :: .predEval l'.writer clientID (cond l'.writer clientID)
             :: rest) ∧
    (∀ m : Nat, ¬ (elapsed (i + 1) : Int) < timeout →
       condLoop lockID clientID cond upsert timeout reads writes elapsed (m + 1) (i + 1) =
         ([], .threw "timeout for overriding lock writer exceeded")) := by
  refine ⟨?_, ?_, ?_⟩
  · rw [condLoop, if_pos htime, hread]
    simp only [hcond, if_true, hwrite, hsw, if_pos]
  · intro m ht' l' hr'
    cases hc' : cond l'.writer clientID with
    | false =>
      refine ⟨[], ?_⟩
      rw [condLoop, if_pos ht', hr']
      simp only [hc', Bool.false_eq_true, if_false]
    | true =>
      cases hw' : tryOverrideLockWriter lockID clientID l'.writer upsert
          (writes (i + 1)) with
      | ok s' =>
        refine ⟨[.writeAttempt l'.writer (.ok s')], ?_⟩
        rw [condLoop, if_pos ht', hr']
        simp only [hc', if_true, hw']
      | error msg' =>
        cases hsw' : strIncludes msg' overrideWriterSwitchedError with
        | true =>
          refine ⟨.writeAttempt l'.writer (.error msg') :: .slept
            :: (condLoop lockID clientID cond upsert timeout reads writes elapsed
                 m (i + 1 + 1)).1, ?_⟩
          rw [condLoop, if_pos ht', hr']
          simp only [hc', if_true, hw', hsw', if_pos]
        | false =>
          refine ⟨[.writeAttempt l'.writer (.error msg')], ?_⟩
          rw [condLoop, if_pos ht', hr']
          simp only [hc', if_true, hw', hsw', Bool.false_eq_true, if_false]
  · intro m ht'
    rw [condLoop, if_neg ht']

/-- Witness for `condOverride_staleness`: the writer changes from `"w1"` to
`"w2"` between iteration 0's read and write (the write hits the unique index:
WriterSwitched); the loop retries and iteration 1 re-evaluates the predicate
on `"w2"`. -/
theorem condOverride_staleness_witness :
    condLoop "L" "c9" (fun _ _ => true) true 100
      (fun n => if n = 0 then some ⟨"L", [], "w1"⟩ else some ⟨"L", [], "w2"⟩)
      (fun _ => some ⟨"L", [], "w2"⟩) (fun _ => 0) 2 0 =
      (.readRec (some ⟨"L", [], "w1"⟩) :: .predEval "w1" "c9" true
        :: .writeAttempt "w1"
             (.error "error overriding lock L: lock already held by another writer")
        :: .slept
        :: (condLoop "L" "c9" (fun _ _ => true) true 100
             (fun n => if n = 0 then some ⟨"L", [], "w1"⟩ else some ⟨"L", [], "w2"⟩)
             (fun _ => some ⟨"L", [], "w2"⟩) (fun _ => 0) 1 1).1,
       (condLoop "L" "c9" (fun _ _ => true) true 100
         (fun n => if n = 0 then some ⟨"L", [], "w1"⟩ else some ⟨"L", [], "w2"⟩)
         (fun _ => some ⟨"L", [], "w2"⟩) (fun _ => 0) 1 1).2) :=
  (condOverride_staleness "L" "c9" (fun _ _ => true) true 100
    (fun n => if n = 0 then some ⟨"L", [], "w1"⟩ else some ⟨"L", [], "w2"⟩)
    (fun _ => some ⟨"L", [], "w2"⟩) (fun _ => 0) 1 0 ⟨"L", [], "w1"⟩
    "error overriding lock L: lock already held by another writer"
    (by decide) rfl rfl rfl (by decide)).1

/-- C10: with `timeout ≤ 0` the guard `Date.now() - start < timeout` fails at
once (elapsed wall-clock time is never negative), so
`conditionalOverrideLockWriter` throws
`timeout for overriding lock writer exceeded` immediately: the trace is empty
— no store read, no predicate evaluation, no store mutation. -/
theorem condOverride_timeout_nonpositive (lockID clientID : String)
    (cond : String → String → Bool) (upsert : Bool) (timeout : Int)
    (reads writes : Nat → LockStore) (elapsed : Nat → Nat) (fuel i : Nat)
    (ht : timeout ≤ 0) :
    condLoop lockID clientID cond upsert timeout reads writes elapsed (fuel + 1) i =
      ([], .threw "timeout for overriding lock writer exceeded") := by
  have hne : ¬ ((elapsed i : Int) < timeout) := by
    have h0 : (0 : Int) ≤ (elapsed i : Int) := Int.ofNat_nonneg _
    omega
  rw [condLoop, if_neg hne]

/-- Witness for `condOverride_timeout_nonpositive` at `timeout = 0`. -/
theorem condOverride_timeout_nonpositive_witness :
    condLoop "L" "c1" (fun _ _ => true) true 0 (fun _ => none) (fun _ => none)
      (fun _ => 0) 1 0 = ([], .threw "timeout for overriding lock writer exceeded") :=
  condOverride_timeout_nonpositive "L" "c1" (fun _ _ => true) true 0 (fun _ => none)
    (fun _ => none) (fun _ => 0) 0 0 (by decide)

/-! ### Mutual exclusion of the write lock -/

/-- A successful `lock()` iteration leaves this client as the stored writer,
and can only have happened if the slot was empty or the stored writer was
already empty or this client. -/
theorem lockStep_acquired_writer (lockID c : String) (s s' : LockStore)
    (h : lockStep lockID c s = .acquired s') :
    ∃ l', s' = some l' ∧ l'.writer = c ∧
      ∀ l, s = some l → (l.writer = "" ∨ l.writer = c) := by
  cases s with
  | none =>
    simp only [lockStep, lockAttempt, lockHandleOutcome] at h
    simp at h
    exact ⟨_, h.symm, rfl, fun l hl => by cases hl⟩
  | some l =>
    by_cases hm : lockFilterMatch lockID c l = true
    · simp only [lockStep, lockAttempt, hm, if_true, lockHandleOutcome] at h
      simp at h
      refine ⟨_, h.symm, rfl, ?_⟩
      intro l0 hl0
      injection hl0 with he
      subst he
      simp only [lockFilterMatch, emptyWriterMatch, Bool.and_eq_true, Bool.or_eq_true,
        beq_iff_eq] at hm
      exact hm.2
    · simp only [lockStep, lockAttempt, hm, Bool.false_eq_true, if_false,
        lockHandleOutcome, dupKeyErr, DuplicateKeyErrorCode] at h
      simp at h

/-- A `lock()` iteration that retries leaves the slot unchanged (the only
retry source is the duplicate-key conflict, which mutates nothing). -/
theorem lockStep_retry_eq (lockID c : String) (s s' : LockStore)
    (h : lockStep lockID c s = .retry s') : s' = s := by
  cases s with
  | none =>
    simp only [lockStep, lockAttempt, lockHandleOutcome] at h
    simp at h
  | some l =>
    by_cases hm : lockFilterMatch lockID c l = true
    · simp only [lockStep, lockAttempt, hm, if_true, lockHandleOutcome] at h
      simp at h
    · simp only [lockStep, lockAttempt, hm, Bool.false_eq_true, if_false,
        lockHandleOutcome, dupKeyErr, DuplicateKeyErrorCode] at h
      simp at h
      exact h.symm

/-- A successful `rLock()` iteration leaves an empty stored writer, and can
only have happened if the slot was empty or the stored writer was empty. -/
theorem rLockStep_acquired_writer (lockID c : String) (s s' : LockStore)
    (h : rLockStep lockID c s = .acquired s') :
    ∃ l', s' = some l' ∧ l'.writer = "" ∧
      ∀ l, s = some l → l.writer = "" := by
  cases s with
  | none =>
    simp only [rLockStep, rLockAttempt, lockHandleOutcome] at h
    simp at h
    exact ⟨_, h.symm, rfl, fun l hl => by cases hl⟩
  | some l =>
    by_cases hm : rLockFilterMatch lockID l = true
    · simp only [rLockStep, rLockAttempt, hm, if_true, lockHandleOutcome] at h
      simp at h
      refine ⟨_, h.symm, rfl, ?_⟩
      intro l0 hl0
      injection hl0 with he
      subst he
      simp only [rLockFilterMatch, emptyWriterMatch, Bool.and_eq_true, beq_iff_eq] at hm
      exact hm.2
    · simp only [rLockStep, rLockAttempt, hm, Bool.false_eq_true, if_false,
        lockHandleOutcome, dupKeyErr, DuplicateKeyErrorCode] at h
      simp at h

/-- An `rLock()` iteration that retries leaves the slot unchanged. -/
theorem rLockStep_retry_eq (lockID c : String) (s s' : LockStore)
    (h : rLockStep lockID c s = .retry s') : s' = s := by
  cases s with
  | none =>
    simp only [rLockStep, rLockAttempt, lockHandleOutcome] at h
    simp at h
  | some l =>
    by_cases hm : rLockFilterMatch lockID l = true
    · simp only [rLockStep, rLockAttempt, hm, if_true, lockHandleOutcome] at h
      simp at h
    · simp only [rLockStep, rLockAttempt, hm, Bool.false_eq_true, if_false,
        lockHandleOutcome, dupKeyErr, DuplicateKeyErrorCode] at h
      simp at h
      exact h.symm

/-- `unlock()` succeeds only for the client stored as the writer. -/
theorem unlock_ok_writer (lockID c : String) (s s' : LockStore)
    (h : unlock lockID c s = .ok s') :
    ∃ l, s = some l ∧ l.writer = c := by
  cases s with
  | none => simp [unlock, deleteOneBy, updateOneBy] at h
  | some l =>
    refine ⟨l, rfl, ?_⟩
    by_cases hd : unlockDeleteMatch lockID c l = true
    · simp only [unlockDeleteMatch, Bool.and_eq_true, beq_iff_eq] at hd
      exact hd.1.2
    · simp only [unlock, deleteOneBy, hd, Bool.false_eq_true, if_false] at h
      by_cases hu : unlockUpdateMatch lockID c l = true
      · simp only [unlockUpdateMatch, Bool.and_eq_true, beq_iff_eq] at hu
        exact hu.2
      · simp only [updateOneBy, hu, Bool.false_eq_true, if_false] at h
        simp at h

/-- A successful `rUnlock()` either deletes the record (possible only with an
empty stored writer) or removes this client from `readers`, leaving the
writer untouched. -/
theorem rUnlock_ok_cases (lockID c : String) (s s' : LockStore)
    (h : rUnlock lockID c s = .ok s') :
    ∃ l, s = some l ∧
      ((l.writer = "" ∧ s' = none) ∨
       s' = some { l with readers := l.readers.filter (fun r => r ≠ c) }) := by
  cases s with
  | none => simp [rUnlock, deleteOneBy, updateOneBy] at h
  | some l =>
    refine ⟨l, rfl, ?_⟩
    by_cases hd : rUnlockDeleteMatch lockID c l = true
    · left
      constructor
      · simp only [rUnlockDeleteMatch, emptyWriterMatch, Bool.and_eq_true,
          beq_iff_eq] at hd
        exact hd.1.2
      · simp only [rUnlock, deleteOneBy, hd, if_true] at h
        simp at h
        exact h.symm
    · simp only [rUnlock, deleteOneBy, hd, Bool.false_eq_true, if_false] at h
      by_cases hu : rUnlockUpdateMatch lockID c l = true
      · right
        simp only [updateOneBy, hu, if_true] at h
        simp at h
        rw [← h]
        simp only [ne_eq, decide_not]
      · simp only [updateOneBy, hu, Bool.false_eq_true, if_false] at h
        simp at h

/-- One atomic protocol action by a process with a non-empty `clientID`
preserves `WriterInv`. -/
theorem protoStep_writerInv (lockID : String) (st : SysState) (op : ProtoOp)
    (hc : op.client ≠ "") (h : WriterInv st) :
    WriterInv (protoStep lockID st op) := by
  cases op with
  | opLock c =>
    simp only [ProtoOp.client] at hc
    simp only [protoStep]
    cases hstep : RWMutex.lockStep lockID c st.store with
    | acquired s' =>
      obtain ⟨l', hs', hw', hpre⟩ := lockStep_acquired_writer lockID c _ _ hstep
      intro x hx
      simp only at hx
      by_cases hxc : x = c
      · subst hxc
        exact ⟨hc, l', hs', hw'⟩
      · have hxh : x ∈ st.wHolders := by
          simp only [insertHolder] at hx
          split at hx
          · exact hx
          · rcases List.mem_cons.mp hx with h1 | h1
            · exact absurd h1 hxc
            · exact h1
        obtain ⟨hxne, l0, hl0, hw0⟩ := h x hxh
        rcases hpre l0 hl0 with h1 | h1
        · exact absurd (hw0.symm.trans h1) hxne
        · exact absurd (hw0.symm.trans h1) hxc
    | retry s' =>
      rw [lockStep_retry_eq lockID c _ _ hstep]
      intro x hx
      exact h x hx
    | failed msg =>
      exact h
  | opUnlock c =>
    simp only [protoStep]
    cases hstep : RWMutex.unlock lockID c st.store with
    | ok s' =>
      obtain ⟨l, hl, hw⟩ := unlock_ok_writer lockID c _ _ hstep
      intro x hx
      have hmem := List.mem_filter.mp hx
      have hxc : x ≠ c := by simpa using hmem.2
      obtain ⟨hxne, l0, hl0, hw0⟩ := h x hmem.1
      rw [hl] at hl0
      injection hl0 with he
      subst he
      exact absurd (hw0.symm.trans hw) hxc
    | error msg =>
      intro x hx
      have hmem := List.mem_filter.mp hx
      exact h x hmem.1
  | opRLock c =>
    simp only [protoStep]
    cases hstep : RWMutex.rLockStep lockID c st.store with
    | acquired s' =>
      obtain ⟨l', hs', hw', hpre⟩ := rLockStep_acquired_writer lockID c _ _ hstep
      intro x hx
      obtain ⟨hxne, l0, hl0, hw0⟩ := h x hx
      exact absurd (hw0.symm.trans (hpre l0 hl0)) hxne
    | retry s' =>
      rw [rLockStep_retry_eq lockID c _ _ hstep]
      intro x hx
      exact h x hx
    | failed msg =>
      exact h
  | opRUnlock c =>
    simp only [protoStep]
    cases hstep : RWMutex.rUnlock lockID c st.store with
    | ok s' =>
      obtain ⟨l, hl, hcase⟩ := rUnlock_ok_cases lockID c _ _ hstep
      intro x hx
      obtain ⟨hxne, l0, hl0, hw0⟩ := h x hx
      rw [hl] at hl0
      injection hl0 with he
      subst he
      rcases hcase with ⟨hwE, hs'⟩ | hs'
      · exact absurd (hw0.symm.trans hwE) hxne
      · exact ⟨hxne, _, hs', hw0⟩
    | error msg =>
      exact h

/-- `WriterInv` holds along any interleaving of protocol actions by processes
with non-empty identities. -/
theorem runProto_writerInv_aux (lockID : String) (ops : List ProtoOp)
    (st : SysState) (hst : WriterInv st)
    (h : ∀ op ∈ ops, op.client ≠ "") :
    WriterInv (ops.foldl (protoStep lockID) st) := by
  induction ops generalizing st with
  | nil => exact hst
  | cons op t ih =>
    exact ih _ (protoStep_writerInv lockID st op (h op (List.mem_cons_self op t)) hst)
      (fun o ho => h o (List.mem_cons_of_mem op ho))

/-- C9: mutual exclusion of the exclusive lock.  For every interleaving of
atomic `lock()` / `unlock()` / `rLock()` / `rUnlock()` actions by concurrent
processes (with non-empty client identities) on the same `lockID`, starting
from no lock record, at most one `clientID` at a time observes itself holding
the writer role: any two holders in the reached state coincide. -/
theorem mutual_exclusion (lockID : String) (ops : List ProtoOp)
    (h : ∀ op ∈ ops, op.client ≠ "") :
    ∀ c1 ∈ (runProto lockID ops).wHolders,
      ∀ c2 ∈ (runProto lockID ops).wHolders, c1 = c2 := by
  intro c1 h1 c2 h2
  have hinv : WriterInv (runProto lockID ops) :=
    runProto_writerInv_aux lockID ops initState (fun c hcm => by cases hcm) h
  obtain ⟨-, l1, hl1, hw1⟩ := hinv c1 h1
  obtain ⟨-, l2, hl2, hw2⟩ := hinv c2 h2
  rw [hl1] at hl2
  injection hl2 with he
  rw [← hw1, ← hw2, he]

/-- Witness for `mutual_exclusion`: a concrete interleaving in which client
"2" spins while "1" holds, acquires after "1" releases, and a reader joins. -/
theorem mutual_exclusion_witness :
    (∀ op ∈ [ProtoOp.opLock "1", ProtoOp.opLock "2", ProtoOp.opUnlock "1",
        ProtoOp.opLock "2", ProtoOp.opRLock "3"], op.client ≠ "") ∧
    (∀ c1 ∈ (runProto "L" [ProtoOp.opLock "1", ProtoOp.opLock "2",
        ProtoOp.opUnlock "1", ProtoOp.opLock "2", ProtoOp.opRLock "3"]).wHolders,
      ∀ c2 ∈ (runProto "L" [ProtoOp.opLock "1", ProtoOp.opLock "2",
        ProtoOp.opUnlock "1", ProtoOp.opLock "2", ProtoOp.opRLock "3"]).wHolders,
        c1 = c2) :=
  ⟨by decide,
   mutual_exclusion "L" [ProtoOp.opLock "1", ProtoOp.opLock "2",
     ProtoOp.opUnlock "1", ProtoOp.opLock "2", ProtoOp.opRLock "3"] (by decide)⟩

end RWMutex

end MongoLockNode
